import Mathlib

/-!
Verification of the YtxModel hierarchical ledger engine.

Shallow embedding of the engine code (`src/database/sqlite/sqlite.cc`,
`src/table/model/tablemodelutils.h`, `src/table/model/tablemodelorder.cc`).
Pure control flow is translated into Lean functions; the in-memory
transaction cache (`trans_hash_`) is a list of transaction records; signal
emissions and database statement executions are recorded as ordered event
traces; fallible SQL statements are state transformers returning `Option`.
-/

namespace YtxModel

/-- The ledger sections (`enum class Section` in `component/info.h`). -/
inductive Section where
  | kFinance
  | kProduct
  | kTask
  | kStakeholder
  | kPurchase
  | kSales
  deriving DecidableEq, Repr

/-- Projection of the cached `Trans` record onto the fields that the
node-reference operations in `sqlite.cc` read or mutate. -/
structure Trans where
  id : Int
  lhs_node : Int
  rhs_node : Int
  deriving DecidableEq, Repr

/-- One iteration of the loop in `Sqlite::DialogReplaceNode`
(`sqlite.cc:789-799`): the two `if`s run in sequence on the same cached
transaction, the second reading `lhs_node`/`rhs_node` after the first may
already have rewritten `lhs_node`.  Returns the updated transaction together
with the `(counter-party node, trans id)` pairs emplaced into the hash. -/
def replaceNodeStep (old_node_id new_node_id : Int) (t : Trans) : Trans × List (Int × Int) :=
  let p1 :=
    if t.lhs_node = old_node_id ∧ t.rhs_node ≠ new_node_id then
      ({ t with lhs_node := new_node_id }, [(t.rhs_node, t.id)])
    else (t, [])
  let t1 := p1.1
  let p2 :=
    if t1.rhs_node = old_node_id ∧ t1.lhs_node ≠ new_node_id then
      ({ t1 with rhs_node := new_node_id }, [(t1.lhs_node, t1.id)])
    else (t1, [])
  (p2.1, p1.2 ++ p2.2)

/-- `Sqlite::DialogReplaceNode` (`sqlite.cc:783-802`): rewrites the cached
transactions in place and returns the `QMultiHash` contents as a list of
`(key, value)` pairs.  Each loop iteration touches only its own transaction,
so iterating the hash is modelled as mapping over the cache list. -/
def DialogReplaceNode (old_node_id new_node_id : Int) (cache : List Trans) :
    List Trans × List (Int × Int) :=
  (cache.map (fun t => (replaceNodeStep old_node_id new_node_id t).1),
   cache.flatMap (fun t => (replaceNodeStep old_node_id new_node_id t).2))

/-- One iteration of the loop in `Sqlite::DialogRemoveNode`
(`sqlite.cc:45-51`): the pairs emplaced for one cached transaction. -/
def removeNodeStep (node_id : Int) (t : Trans) : List (Int × Int) :=
  (if t.lhs_node = node_id ∧ t.rhs_node ≠ node_id then [(t.rhs_node, t.id)] else []) ++
  (if t.rhs_node = node_id ∧ t.lhs_node ≠ node_id then [(t.lhs_node, t.id)] else [])

/-- `Sqlite::DialogRemoveNode` (`sqlite.cc:39-54`). -/
def DialogRemoveNode (node_id : Int) (cache : List Trans) : List (Int × Int) :=
  cache.flatMap (removeNodeStep node_id)

/-- `QMultiHash::uniqueKeys()` on the modelled hash contents: the distinct keys. -/
def uniqueKeys (node_trans : List (Int × Int)) : List Int :=
  (node_trans.map Prod.fst).dedup

/-- Observable actions of the engine: signal emissions, statement executions
against the database, and cache reclamations, in program order. -/
inductive Event where
  | freeView (node_id : Int)
  | removeNode (node_id : Int)
  | removeMultiTrans (node_trans : List (Int × Int))
  | updateMultiLeafTotal (node_list : List Int)
  | recycle (trans_id : Int)
  | execReplaceNode (old_node_id new_node_id : Int)
  | moveMultiTrans (old_node_id new_node_id : Int) (trans_id_list : List Int)
  | updateProductReference (old_node_id new_node_id : Int)
  | updateLeafValue (node_id : Int) (first second amount discount settled : ℚ)
  deriving DecidableEq, Repr

/-- The section test guarding the balance notifications in
`Sqlite::RRemoveNode` (`sqlite.cc:27`). -/
def isFPTSection : Section → Bool
  | .kFinance => true
  | .kProduct => true
  | .kTask => true
  | _ => false

/-- The ordered trace of signal emissions and cache reclamations performed by
`Sqlite::RRemoveNode` (`sqlite.cc:19-37`). -/
def RRemoveNodeEvents (sec : Section) (node_id : Int) (cache : List Trans) : List Event :=
  let node_trans := DialogRemoveNode node_id cache
  [Event.freeView node_id, Event.removeNode node_id] ++
    (if isFPTSection sec then
      [Event.removeMultiTrans node_trans, Event.updateMultiLeafTotal (uniqueKeys node_trans)]
     else []) ++
    node_trans.map (fun p => Event.recycle p.2)

/-- `Sqlite::RRemoveNode` (`sqlite.cc:19-37`): returns `true`, the event
trace, and the cache after the `trans_hash_.take` reclamation loop. -/
def RRemoveNode (sec : Section) (node_id : Int) (cache : List Trans) :
    Bool × List Event × List Trans :=
  (true, RRemoveNodeEvents sec node_id cache,
   cache.filter (fun t => ! (DialogRemoveNode node_id cache).any (fun p => p.2 == t.id)))

/-- The body of `Sqlite::RReplaceNode` after the purchase/sales guard
(`sqlite.cc:63-98`).  `db_ok` models whether the prepared UPDATE statement
executes successfully. -/
def RReplaceNodeBody (sec : Section) (old_node_id new_node_id : Int) (cache : List Trans)
    (db_ok : Bool) : Bool × List Trans × List Event :=
  let r := DialogReplaceNode old_node_id new_node_id cache
  let cache1 := r.1
  let node_trans := r.2
  let free := ! node_trans.any (fun p => p.1 == new_node_id)
  let node_trans1 := node_trans.filter (fun p => p.1 != new_node_id)
  if node_trans1.isEmpty then (true, cache1, [])
  else if db_ok then
    (true, cache1,
      [Event.execReplaceNode old_node_id new_node_id,
       Event.moveMultiTrans old_node_id new_node_id (node_trans1.map Prod.snd),
       Event.updateMultiLeafTotal [old_node_id, new_node_id]] ++
      (if sec = Section.kProduct then
        [Event.updateProductReference old_node_id new_node_id] else []) ++
      (if free then [Event.freeView old_node_id, Event.removeNode old_node_id] else []))
  else (false, cache1, [Event.execReplaceNode old_node_id new_node_id])

/-- `Sqlite::RReplaceNode` (`sqlite.cc:56-99`). -/
def RReplaceNode (sec : Section) (old_node_id new_node_id : Int) (cache : List Trans)
    (db_ok : Bool) : Bool × List Trans × List Event :=
  if sec = Section.kPurchase ∨ sec = Section.kSales then (false, cache, [])
  else RReplaceNodeBody sec old_node_id new_node_id cache db_ok

/-- Projection of `Node` onto the fields read or written by the tree-side
operations of `sqlite.cc` (see `Sqlite::ReadNode`, `sqlite.cc:680-693`).
Balance amounts are modelled as rationals; the only arithmetic the embedded
code performs on them is multiplication by a sign. -/
structure Node where
  id : Int
  name : String
  code : String
  description : String
  note : String
  rule : Bool
  branch : Bool
  unit : Int
  initial_total : ℚ
  final_total : ℚ
  deriving DecidableEq, Repr

/-- `Sqlite::CalculateLeafTotal` (`sqlite.cc:205-218`).  `row` is the result
row of the leaf-total query: `none` when `query.next()` yields no row, and
otherwise the possibly-NULL `initial_balance` and `final_balance` values. -/
def CalculateLeafTotal (node : Node) (row : Option (Option ℚ × Option ℚ)) : Node :=
  let sign : ℚ := if node.rule then 1 else -1
  match row with
  | some (initial_balance, final_balance) =>
    { node with
      initial_total := sign * initial_balance.getD 0
      final_total := sign * final_balance.getD 0 }
  | none => node

/-- `Sqlite::LeafTotal` (`sqlite.cc:220-240`).  `node` is `none` for a null
pointer; `qs_empty` models `LeafTotalQS().isEmpty()`; `exec_ok` models
`query.exec()`; `row` is the result row as in `CalculateLeafTotal`. -/
def LeafTotal (node : Option Node) (qs_empty exec_ok : Bool)
    (row : Option (Option ℚ × Option ℚ)) : Option Node :=
  match node with
  | none => none
  | some n =>
    if n.id ≤ 0 ∨ n.branch then some n
    else if qs_empty then some n
    else if ! exec_ok then some n
    else some (CalculateLeafTotal n row)

/-- `Sqlite::DBTransaction` (`sqlite.cc:695-704`) over an abstract database
state: `begin_ok`/`commit_ok` model `db_->transaction()` and `db_->commit()`;
`f` is the wrapped lambda, returning the new state on success and `none` on
failure; on any failure `db_->rollback()` restores the entry state. -/
def DBTransaction {α : Type} (begin_ok commit_ok : Bool) (f : α → Option α) (s : α) :
    Bool × α :=
  if begin_ok then
    match f s with
    | some s1 => if commit_ok then (true, s1) else (false, s)
    | none => (false, s)
  else (false, s)

/-- `Sqlite::RemoveNode` (`sqlite.cc:242-288`): the first/second/third
prepared statements (node record, node-transaction records, node-path
records) run in sequence inside one `DBTransaction`; each is modelled as a
fallible state transformer.  The branch/leaf choice of the second statement
is made before the transaction and is reflected in the `second` argument. -/
def RemoveNode {α : Type} (begin_ok commit_ok : Bool) (first second third : α → Option α)
    (s : α) : Bool × α :=
  DBTransaction begin_ok commit_ok
    (fun s0 => (first s0).bind (fun s1 => (second s1).bind third)) s

/-- `Sqlite::DragNode` (`sqlite.cc:350-385`): the two path statements run in
sequence inside one `DBTransaction`. -/
def DragNode {α : Type} (begin_ok commit_ok : Bool) (first second : α → Option α)
    (s : α) : Bool × α :=
  DBTransaction begin_ok commit_ok (fun s0 => (first s0).bind second) s

/-- `Sqlite::WriteRelationship` (`sqlite.cc:736-755`): executes the path
INSERT; a failure is only logged (`qWarning`) and leaves the statement
without effect — the function returns `void`, so the caller cannot observe
the failure. -/
def WriteRelationship {α : Type} (write_rel : α → Option α) (s : α) : α :=
  (write_rel s).getD s

/-- `Sqlite::InsertNode` (`sqlite.cc:159-191`): rejects a null node or
`id == -1` (`node_valid` models `node && node->id != -1`), then runs the
node-row INSERT followed by `WriteRelationship` inside one `DBTransaction`.
The wrapped lambda returns `true` whenever the node-row INSERT succeeded,
regardless of the outcome of `WriteRelationship`. -/
def InsertNode {α : Type} (node_valid begin_ok commit_ok : Bool)
    (insert_node_stmt write_rel : α → Option α) (s : α) : Bool × α :=
  if node_valid then
    DBTransaction begin_ok commit_ok
      (fun s0 => (insert_node_stmt s0).map (WriteRelationship write_rel)) s
  else (false, s)

/-- One row of the section's transaction table, projected onto its id and the
boolean column named by `UpdateCheckState`'s `column` argument. -/
structure TransRow where
  id : Int
  checked : Bool
  deriving DecidableEq, Repr

/-- `Sqlite::UpdateCheckState` (`sqlite.cc:600-624`): the generated UPDATE
statement carries no WHERE clause in either mode, so its SQL semantics is a
map over every row of the table.  `reverse` models `state == Check::kReverse`;
in reverse mode the statement is `SET col = NOT col`, otherwise
`SET col = :value`. -/
def UpdateCheckState (value : Bool) (reverse : Bool) (table : List TransRow) :
    List TransRow :=
  if reverse then table.map (fun r => { r with checked := ! r.checked })
  else table.map (fun r => { r with checked := value })

/-- A `TransShadow` as far as object identity is concerned: the pool object id
of the `Trans` it aliases. -/
structure ShadowRef where
  trans_obj : Nat
  deriving DecidableEq, Repr

/-- The parts of the `Sqlite` object state that `AllocateTransShadow` and
`InsertTransShadow` interact with: the resource pool's supply of fresh
`Trans` objects (object ids from a counter), the `last_trans_` member, the
`trans_hash_` cache (database id to `Trans` object id), and the database's
next auto-generated row id. -/
structure SqlState where
  pool_counter : Nat
  last_trans : Nat
  trans_hash : List (Int × Nat)
  next_db_id : Int
  deriving DecidableEq, Repr

/-- `Sqlite::AllocateTransShadow` (`sqlite.cc:660-667`): allocates a fresh
`Trans`, stores it in `last_trans_`, and returns a shadow aliasing it. -/
def AllocateTransShadow (s : SqlState) : ShadowRef × SqlState :=
  (⟨s.pool_counter⟩,
   { s with pool_counter := s.pool_counter + 1, last_trans := s.pool_counter })

/-- `Sqlite::InsertTransShadow` (`sqlite.cc:488-504`): on successful INSERT
(`db_ok`) the generated row id is captured and `trans_hash_.insert(*id,
last_trans_)` registers the `last_trans_` object — not the `Trans` aliased by
the shadow that was passed in — under that id. -/
def InsertTransShadow (trans_shadow : ShadowRef) (db_ok : Bool) (s : SqlState) :
    Bool × Int × SqlState :=
  if db_ok then
    (true, s.next_db_id,
     { s with
        trans_hash := (s.next_db_id, s.last_trans) :: s.trans_hash
        next_db_id := s.next_db_id + 1 })
  else (false, 0, s)

/-- The order-variant transaction record seen through a `TransShadow`, with
the fields that `tablemodelorder.cc` reads or mutates.  A shadow aliases its
record, so mutating the shadow mutates these values directly. -/
structure TransO where
  id : Int
  lhs_node : Int
  rhs_node : Int
  lhs_debit : ℚ
  lhs_credit : ℚ
  rhs_debit : ℚ
  rhs_credit : ℚ
  settled : ℚ
  unit_price : ℚ
  discount_price : ℚ
  support_id : Int
  deriving DecidableEq, Repr

/-- A database write issued by the table-model layer. -/
inductive DbWrite where
  | updateFieldAny (table field : String) (id : Int)
  | updateFieldInt (table field : String) (id : Int) (value : Int)
  | writeTrans (record : TransO)
  | writeTransRangeO (batch : List TransO)
  deriving DecidableEq, Repr

/-- The field name constant `kInsideProduct` bound in the UPDATE issued by
`TableModelOrder::setData`. -/
def kInsideProduct : String := "inside_product"

/-- `TableModelUtils::UpdateField` (`tablemodelutils.h:31-57`), generic over
the member type `V`.  `member` is the current value behind the shadow's
member pointer and `rhs_node` the value behind `trans_shadow->rhs_node`.
Returns the reported flag, the member value after the call, and the database
writes issued (`sql->UpdateField` when reached). -/
def TableModelUtils.UpdateField {V : Type} [DecidableEq V] (member value : V)
    (rhs_node : Int) (table field : String) (id : Int) : Bool × V × List DbWrite :=
  if member = value then (false, member, [])
  else if rhs_node = 0 then (false, value, [])
  else (true, value, [DbWrite.updateFieldAny table field id])

/-- The `TableModel` state that `TableModelOrder::RUpdateNodeID` touches:
the owning node id `node_id_` and `trans_shadow_list_`. -/
structure OrderTableState where
  node_id : Int
  trans_shadow_list : List TransO
  deriving DecidableEq, Repr

/-- `TableModelOrder::RUpdateNodeID` (`tablemodelorder.cc:20-58`): on first
assignment of a positive node id, walks the shadow list from the back,
recycling every shadow whose `rhs_node` is 0 and rewriting `lhs_node` of the
survivors to the new node id while accumulating the leaf-value diffs; then
bulk-inserts the surviving shadows (`sql_->WriteTransRangeO`) when any
remain, and emits `SUpdateLeafValue`. -/
def RUpdateNodeID (node_id : Int) (st : OrderTableState) :
    OrderTableState × List DbWrite × List Event :=
  if st.node_id ≠ 0 ∨ node_id ≤ 0 then (st, [], [])
  else if st.trans_shadow_list.isEmpty then ({ st with node_id := node_id }, [], [])
  else
    let kept := (st.trans_shadow_list.filter (fun t => t.rhs_node != 0)).map
      (fun t => { t with lhs_node := node_id })
    let first_diff := (kept.map TransO.lhs_debit).sum
    let second_diff := (kept.map TransO.lhs_credit).sum
    let amount_diff := (kept.map TransO.rhs_credit).sum
    let discount_diff := (kept.map TransO.rhs_debit).sum
    let settled_diff := (kept.map TransO.settled).sum
    let writes := if kept.isEmpty then [] else [DbWrite.writeTransRangeO kept]
    ({ node_id := node_id, trans_shadow_list := kept }, writes,
     [Event.updateLeafValue node_id first_diff second_diff amount_diff discount_diff
        settled_diff])

/-- `TableModelOrder::CrossSearch` (`tablemodelorder.cc:408-418`): a no-op
for `product_id ≤ 0`; otherwise either the stakeholder lookup fills the
shadow (`stakeholder_found`, modelled as the filled record) or the fallback
sets `unit_price` from the product tree (`product_first`, only when
`is_inside`) and clears `support_id` (inside) or `rhs_node` (outside). -/
def CrossSearch (trans_shadow : TransO) (product_id : Int) (is_inside : Bool)
    (stakeholder_found : Option TransO) (product_first : ℚ) : TransO :=
  if product_id ≤ 0 then trans_shadow
  else
    match stakeholder_found with
    | some found => found
    | none =>
      let t1 := { trans_shadow with unit_price := if is_inside then product_first else 0 }
      if is_inside then { t1 with support_id := 0 } else { t1 with rhs_node := 0 }

/-- `TableModelOrder::UpdateInsideProduct` (`tablemodelorder.cc:307-319`). -/
def UpdateInsideProduct (trans_shadow : TransO) (value : Int)
    (stakeholder_found : Option TransO) (product_first : ℚ) : TransO × Bool :=
  if trans_shadow.rhs_node = value then (trans_shadow, false)
  else
    let t1 := { trans_shadow with rhs_node := value }
    (CrossSearch t1 value true stakeholder_found product_first, true)

/-- The `kInsideProduct` case of `TableModelOrder::setData`
(`tablemodelorder.cc:132-222`): runs `UpdateInsideProduct`, then — when the
model already has an owning node (`node_id ≠ 0`) and the inside product
changed — either bulk-writes a previously unpersisted line
(`old_rhs_node == 0`) or issues
`sql_->UpdateField(info_.transaction, value, kInsideProduct, id)`.
Returns the shadow after the call, the reported flag, and the writes. -/
def setDataInsideProduct (node_id : Int) (trans_shadow : TransO) (value : Int)
    (stakeholder_found : Option TransO) (product_first : ℚ) (trans_table : String) :
    TransO × Bool × List DbWrite :=
  let old_rhs_node := trans_shadow.rhs_node
  let r := UpdateInsideProduct trans_shadow value stakeholder_found product_first
  let t1 := r.1
  let ins_changed := r.2
  if node_id = 0 then (t1, false, [])
  else
    (t1, true,
      if ins_changed then
        if old_rhs_node = 0 then [DbWrite.writeTrans t1]
        else [DbWrite.updateFieldInt trans_table kInsideProduct t1.id value]
      else [])

/-! ## C1: `ReplaceNode` and self-referencing transactions -/

/-- C1 counterexample.  The claim states that a self-referencing transaction
(old on both sides) is left entirely untouched by `ReplaceNode(old, new)`,
and that every non-self-referencing transaction with old on exactly one side
gets new on that side.  Both parts fail on the code: the loop in
`Sqlite::DialogReplaceNode` compares the opposite side against
`new_node_id`, not `old_node_id`.  At `old = 7`, `new = 9`: the
self-referencing transaction `(7, 7)` becomes `(9, 7)` (not untouched), and
the transaction `(7, 9)` — old on exactly one side — keeps `7` on its left
side instead of receiving `9`. -/
theorem C1_selfref_counterexample :
    (DialogReplaceNode 7 9 [⟨1, 7, 7⟩]).1 = [⟨1, 9, 7⟩]
    ∧ (DialogReplaceNode 7 9 [⟨1, 7, 7⟩]).1 ≠ [⟨1, 7, 7⟩]
    ∧ (DialogReplaceNode 7 9 [⟨2, 7, 9⟩]).1 = [⟨2, 7, 9⟩]
    ∧ (DialogReplaceNode 7 9 [⟨2, 7, 9⟩]).1 ≠ [⟨2, 9, 9⟩] := by
  refine ⟨rfl, ?_, rfl, ?_⟩ <;> decide

/-- C1 (amended): for `old ≠ new`, `ReplaceNode(old, new)` rewrites each
cached transaction as follows.  A side equal to `old` is rewritten to `new`
only when the opposite side, at the moment of the check, differs from `new`:
a transaction with `old` on exactly one side and the counter side different
from `new` gets `new` on that side; a transaction with `old` on one side and
`new` on the other is left untouched; and a self-referencing transaction
(`old` on both sides) has its left side rewritten to `new` while its right
side keeps `old`. -/
theorem C1_replaceNode_amended (old_node_id new_node_id : Int) (cache : List Trans)
    (hne : old_node_id ≠ new_node_id) :
    (DialogReplaceNode old_node_id new_node_id cache).1
      = cache.map (fun t => (replaceNodeStep old_node_id new_node_id t).1)
    ∧ ∀ t : Trans,
      (t.lhs_node = old_node_id ∧ t.rhs_node = old_node_id →
        (replaceNodeStep old_node_id new_node_id t).1 = { t with lhs_node := new_node_id })
      ∧ (t.lhs_node = old_node_id ∧ t.rhs_node ≠ old_node_id ∧ t.rhs_node ≠ new_node_id →
        (replaceNodeStep old_node_id new_node_id t).1 = { t with lhs_node := new_node_id })
      ∧ (t.rhs_node = old_node_id ∧ t.lhs_node ≠ old_node_id ∧ t.lhs_node ≠ new_node_id →
        (replaceNodeStep old_node_id new_node_id t).1 = { t with rhs_node := new_node_id })
      ∧ (t.lhs_node = old_node_id ∧ t.rhs_node = new_node_id →
        (replaceNodeStep old_node_id new_node_id t).1 = t)
      ∧ (t.rhs_node = old_node_id ∧ t.lhs_node = new_node_id →
        (replaceNodeStep old_node_id new_node_id t).1 = t)
      ∧ (t.lhs_node ≠ old_node_id ∧ t.rhs_node ≠ old_node_id →
        (replaceNodeStep old_node_id new_node_id t).1 = t) := by
  refine ⟨rfl, fun t => ⟨?_, ?_, ?_, ?_, ?_, ?_⟩⟩ <;> intro h <;>
    simp only [replaceNodeStep] <;> split_ifs <;> simp_all

/-- C1 witness: the amended theorem evaluated at `old = 7`, `new = 9` on the
self-referencing transaction `(7, 7)` and on `(7, 4)`. -/
theorem C1_replaceNode_amended_witness :
    (DialogReplaceNode 7 9 [⟨1, 7, 7⟩, ⟨3, 7, 4⟩]).1
      = [⟨1, 7, 7⟩, ⟨3, 7, 4⟩].map (fun t => (replaceNodeStep 7 9 t).1)
    ∧ (replaceNodeStep 7 9 ⟨1, 7, 7⟩).1 = { (⟨1, 7, 7⟩ : Trans) with lhs_node := 9 }
    ∧ (replaceNodeStep 7 9 ⟨3, 7, 4⟩).1 = { (⟨3, 7, 4⟩ : Trans) with lhs_node := 9 } :=
  ⟨(C1_replaceNode_amended 7 9 [⟨1, 7, 7⟩, ⟨3, 7, 4⟩] (by decide)).1,
   ((C1_replaceNode_amended 7 9 [⟨1, 7, 7⟩, ⟨3, 7, 4⟩] (by decide)).2 ⟨1, 7, 7⟩).1
     ⟨rfl, rfl⟩,
   (((C1_replaceNode_amended 7 9 [⟨1, 7, 7⟩, ⟨3, 7, 4⟩] (by decide)).2 ⟨3, 7, 4⟩).2.1)
     ⟨rfl, by decide, by decide⟩⟩

/-! ## C2: ordering of notifications and reclamation in `RRemoveNode` -/

/-- Recognizer for `Event.freeView`. -/
def isFreeView : Event → Bool
  | .freeView _ => true
  | _ => false

/-- Recognizer for `Event.removeNode`. -/
def isRemoveNodeEvent : Event → Bool
  | .removeNode _ => true
  | _ => false

/-- Recognizer for the counter-party-balance notification
`Event.updateMultiLeafTotal`. -/
def isBalanceNotify : Event → Bool
  | .updateMultiLeafTotal _ => true
  | _ => false

/-- Recognizer for `Event.recycle` (cache reclamation). -/
def isRecycle : Event → Bool
  | .recycle _ => true
  | _ => false

/-- C2 counterexample.  The claim states that the free-view notification is
emitted strictly after the counter-party-balance notification.  In the trace
of `RRemoveNode(1)` on a finance section with one cached transaction
`(1, 2)`, `SFreeView` is emitted at position 0 and `SUpdateMultiLeafTotal`
at position 3, so free view is not after the balance notification. -/
theorem C2_order_counterexample :
    ¬ ((RRemoveNodeEvents Section.kFinance 1 [⟨5, 1, 2⟩]).findIdx isBalanceNotify
        < (RRemoveNodeEvents Section.kFinance 1 [⟨5, 1, 2⟩]).findIdx isFreeView) := by
  decide

/-- C2 (amended): in the sections that emit balance notifications, the
free-view and remove-node notifications are emitted strictly before the
counter-party-balance notification (positions 0 and 1 versus 3), and every
cache reclamation happens strictly after the remove-node notification (and
after the balance notification: all reclamations sit at positions > 3). -/
theorem C2_removeNode_order_amended (sec : Section) (node_id : Int) (cache : List Trans)
    (hsec : isFPTSection sec = true) :
    (RRemoveNodeEvents sec node_id cache).findIdx isFreeView = 0
    ∧ (RRemoveNodeEvents sec node_id cache).findIdx isRemoveNodeEvent = 1
    ∧ (RRemoveNodeEvents sec node_id cache).findIdx isBalanceNotify = 3
    ∧ ∀ i (h : i < (RRemoveNodeEvents sec node_id cache).length),
        isRecycle ((RRemoveNodeEvents sec node_id cache).get ⟨i, h⟩) = true → 3 < i := by
  have htr : RRemoveNodeEvents sec node_id cache
      = Event.freeView node_id :: Event.removeNode node_id ::
        Event.removeMultiTrans (DialogRemoveNode node_id cache) ::
        Event.updateMultiLeafTotal (uniqueKeys (DialogRemoveNode node_id cache)) ::
        (DialogRemoveNode node_id cache).map (fun p => Event.recycle p.2) := by
    simp [RRemoveNodeEvents, hsec]
  rw [htr]
  refine ⟨?_, ?_, ?_, ?_⟩
  · simp [List.findIdx_cons, isFreeView]
  · simp [List.findIdx_cons, isFreeView, isRemoveNodeEvent]
  · simp [List.findIdx_cons, isFreeView, isRemoveNodeEvent, isBalanceNotify]
  · intro i h hrec
    match i with
    | 0 => simp [List.get, isRecycle] at hrec
    | 1 => simp [List.get, isRecycle] at hrec
    | 2 => simp [List.get, isRecycle] at hrec
    | 3 => simp [List.get, isRecycle] at hrec
    | n + 4 => omega

/-- C2 witness: the amended ordering theorem evaluated on a finance section
with one cached transaction, whose single reclamation sits at position 4. -/
theorem C2_removeNode_order_amended_witness :
    (RRemoveNodeEvents Section.kFinance 1 [⟨5, 1, 2⟩]).findIdx isFreeView = 0
    ∧ (RRemoveNodeEvents Section.kFinance 1 [⟨5, 1, 2⟩]).findIdx isRemoveNodeEvent = 1
    ∧ (RRemoveNodeEvents Section.kFinance 1 [⟨5, 1, 2⟩]).findIdx isBalanceNotify = 3
    ∧ 3 < 4 :=
  ⟨(C2_removeNode_order_amended Section.kFinance 1 [⟨5, 1, 2⟩] rfl).1,
   (C2_removeNode_order_amended Section.kFinance 1 [⟨5, 1, 2⟩] rfl).2.1,
   (C2_removeNode_order_amended Section.kFinance 1 [⟨5, 1, 2⟩] rfl).2.2.1,
   (C2_removeNode_order_amended Section.kFinance 1 [⟨5, 1, 2⟩] rfl).2.2.2 4 (by decide)
     (by decide)⟩

/-! ## C5: the counter-party set emitted by node removal -/

/-- The keys contributed by one cached transaction in
`Sqlite::DialogRemoveNode`, characterised: exactly the other side of a
transaction touching the node, with self-referencing transactions
contributing nothing. -/
theorem mem_removeNodeStep_fst (node_id x : Int) (t : Trans) :
    (∃ p ∈ removeNodeStep node_id t, p.1 = x)
      ↔ ¬ (t.lhs_node = node_id ∧ t.rhs_node = node_id)
        ∧ ((t.lhs_node = node_id ∧ t.rhs_node = x)
            ∨ (t.rhs_node = node_id ∧ t.lhs_node = x)) := by
  unfold removeNodeStep
  by_cases h1 : t.lhs_node = node_id ∧ t.rhs_node ≠ node_id <;>
    by_cases h2 : t.rhs_node = node_id ∧ t.lhs_node ≠ node_id <;>
      simp [h1, h2, eq_comm] <;> tauto

/-- C5: in the sections that emit it, `RRemoveNode` emits
`SUpdateMultiLeafTotal` with the duplicate-free list of counter-party node
ids, and a node id belongs to that list exactly when some cached
non-self-referencing transaction touches the removed node with that id on
the other side. -/
theorem C5_counterparty_set (sec : Section) (node_id : Int) (cache : List Trans)
    (hsec : isFPTSection sec = true) :
    Event.updateMultiLeafTotal (uniqueKeys (DialogRemoveNode node_id cache))
        ∈ RRemoveNodeEvents sec node_id cache
    ∧ (uniqueKeys (DialogRemoveNode node_id cache)).Nodup
    ∧ ∀ x : Int, x ∈ uniqueKeys (DialogRemoveNode node_id cache)
        ↔ ∃ t ∈ cache, ¬ (t.lhs_node = node_id ∧ t.rhs_node = node_id)
            ∧ ((t.lhs_node = node_id ∧ t.rhs_node = x)
                ∨ (t.rhs_node = node_id ∧ t.lhs_node = x)) := by
  refine ⟨?_, List.nodup_dedup _, ?_⟩
  · simp [RRemoveNodeEvents, hsec]
  · intro x
    rw [uniqueKeys, List.mem_dedup, List.mem_map]
    simp only [DialogRemoveNode, List.mem_flatMap]
    constructor
    · rintro ⟨p, ⟨t, ht, hp⟩, hfst⟩
      exact ⟨t, ht, (mem_removeNodeStep_fst node_id x t).mp ⟨p, hp, hfst⟩⟩
    · rintro ⟨t, ht, hcond⟩
      obtain ⟨p, hp, hfst⟩ := (mem_removeNodeStep_fst node_id x t).mpr hcond
      exact ⟨p, ⟨t, ht, hp⟩, hfst⟩

/-- C5 witness: removing node 1 from a finance cache holding `(1, 2)`, the
self-referencing `(1, 1)` and `(3, 1)`: the emitted unique counter-party set
is in the trace, has no duplicates, and contains 2. -/
theorem C5_counterparty_set_witness :
    Event.updateMultiLeafTotal
        (uniqueKeys (DialogRemoveNode 1 [⟨5, 1, 2⟩, ⟨6, 1, 1⟩, ⟨7, 3, 1⟩]))
        ∈ RRemoveNodeEvents Section.kFinance 1 [⟨5, 1, 2⟩, ⟨6, 1, 1⟩, ⟨7, 3, 1⟩]
    ∧ (uniqueKeys (DialogRemoveNode 1 [⟨5, 1, 2⟩, ⟨6, 1, 1⟩, ⟨7, 3, 1⟩])).Nodup
    ∧ (2 : Int) ∈ uniqueKeys (DialogRemoveNode 1 [⟨5, 1, 2⟩, ⟨6, 1, 1⟩, ⟨7, 3, 1⟩]) :=
  ⟨(C5_counterparty_set Section.kFinance 1 [⟨5, 1, 2⟩, ⟨6, 1, 1⟩, ⟨7, 3, 1⟩] rfl).1,
   (C5_counterparty_set Section.kFinance 1 [⟨5, 1, 2⟩, ⟨6, 1, 1⟩, ⟨7, 3, 1⟩] rfl).2.1,
   ((C5_counterparty_set Section.kFinance 1 [⟨5, 1, 2⟩, ⟨6, 1, 1⟩, ⟨7, 3, 1⟩] rfl).2.2
       2).mpr
     ⟨⟨5, 1, 2⟩, by decide, by decide, Or.inl ⟨rfl, rfl⟩⟩⟩

/-! ## C8: the purchase/sales guard of `RReplaceNode` -/

/-- C8: for the purchase and sales sections `RReplaceNode` returns failure
immediately — the cache is untouched and no event (in particular no database
execution) is produced — while for every other section the guard does not
reject: the call proceeds to the body. -/
theorem C8_replace_section_guard (sec : Section) (old_node_id new_node_id : Int)
    (cache : List Trans) (db_ok : Bool) :
    ((sec = Section.kPurchase ∨ sec = Section.kSales) →
      RReplaceNode sec old_node_id new_node_id cache db_ok = (false, cache, []))
    ∧ (sec ≠ Section.kPurchase ∧ sec ≠ Section.kSales →
      RReplaceNode sec old_node_id new_node_id cache db_ok
        = RReplaceNodeBody sec old_node_id new_node_id cache db_ok) := by
  constructor <;> intro h
  · simp [RReplaceNode, h]
  · simp [RReplaceNode, h.1, h.2]

/-- C8 witness: a purchase-section call is rejected with the cache returned
untouched and no events, and a finance-section call reaches the body. -/
theorem C8_replace_section_guard_witness :
    RReplaceNode Section.kPurchase 1 2 [⟨5, 1, 2⟩] true = (false, [⟨5, 1, 2⟩], [])
    ∧ RReplaceNode Section.kFinance 1 2 [⟨5, 1, 2⟩] true
        = RReplaceNodeBody Section.kFinance 1 2 [⟨5, 1, 2⟩] true :=
  ⟨(C8_replace_section_guard Section.kPurchase 1 2 [⟨5, 1, 2⟩] true).1 (Or.inl rfl),
   (C8_replace_section_guard Section.kFinance 1 2 [⟨5, 1, 2⟩] true).2
     ⟨by decide, by decide⟩⟩

/-! ## C3: atomicity of the structural operations -/

/-- All-or-nothing behaviour of `Sqlite::DBTransaction`: a `true` result
means the wrapped function ran to completion and its result state was
committed; a `false` result means the entry state is preserved. -/
theorem DBTransaction_spec {α : Type} (b c : Bool) (f : α → Option α) (s : α) :
    ((DBTransaction b c f s).1 = true →
      ∃ s1, f s = some s1 ∧ (DBTransaction b c f s).2 = s1)
    ∧ ((DBTransaction b c f s).1 = false → (DBTransaction b c f s).2 = s) := by
  unfold DBTransaction
  cases b with
  | false => simp
  | true =>
    rcases hf : f s with _ | s1
    · simp
    · cases c with
      | false => simp
      | true => simp

/-- C3 counterexample.  The claim states that every structural operation
rolls back and returns failure when any of its steps fails.  For
`InsertNode` this is false: `Sqlite::WriteRelationship` swallows a failure
of the closure-path INSERT (it returns `void` and only logs), so the wrapped
lambda still returns `true` and the transaction commits.  Concretely, over a
database state that is a list of applied statements, with a node-row INSERT
that succeeds and a path INSERT that fails, `InsertNode` reports success and
persists the node row alone — partial structural state. -/
theorem C3_insertNode_counterexample :
    InsertNode true true true
        (fun l => some (l ++ ["insert node row"]))
        (fun _ => (none : Option (List String))) [] = (true, ["insert node row"])
    ∧ ((["insert node row"] : List String) ≠ []) := by
  exact ⟨rfl, by decide⟩

/-- C3 (amended): `RemoveNode` and `DragNode` are atomic — on success every
step succeeded in sequence and the final state is the result of all of them,
and on failure the database state is unchanged.  `InsertNode` is atomic in
the same sense only with respect to the begin/commit outcomes and the
node-row INSERT: on success the node-row INSERT succeeded and the final
state is its result passed through `WriteRelationship`, which silently keeps
the state unchanged when the closure-path INSERT fails; on failure the state
is unchanged. -/
theorem C3_atomicity_amended {α : Type} (begin_ok commit_ok node_valid : Bool)
    (f1 f2 f3 g1 g2 ins wrel : α → Option α) (s : α) :
    (((RemoveNode begin_ok commit_ok f1 f2 f3 s).1 = true →
        ∃ s1 s2 s3, f1 s = some s1 ∧ f2 s1 = some s2 ∧ f3 s2 = some s3
          ∧ (RemoveNode begin_ok commit_ok f1 f2 f3 s).2 = s3)
      ∧ ((RemoveNode begin_ok commit_ok f1 f2 f3 s).1 = false →
        (RemoveNode begin_ok commit_ok f1 f2 f3 s).2 = s))
    ∧ (((DragNode begin_ok commit_ok g1 g2 s).1 = true →
        ∃ s1 s2, g1 s = some s1 ∧ g2 s1 = some s2
          ∧ (DragNode begin_ok commit_ok g1 g2 s).2 = s2)
      ∧ ((DragNode begin_ok commit_ok g1 g2 s).1 = false →
        (DragNode begin_ok commit_ok g1 g2 s).2 = s))
    ∧ (((InsertNode node_valid begin_ok commit_ok ins wrel s).1 = true →
        ∃ s1, ins s = some s1
          ∧ (InsertNode node_valid begin_ok commit_ok ins wrel s).2
              = WriteRelationship wrel s1)
      ∧ ((InsertNode node_valid begin_ok commit_ok ins wrel s).1 = false →
        (InsertNode node_valid begin_ok commit_ok ins wrel s).2 = s)) := by
  have hR := DBTransaction_spec begin_ok commit_ok
    (fun s0 => (f1 s0).bind (fun s1 => (f2 s1).bind f3)) s
  have hD := DBTransaction_spec begin_ok commit_ok (fun s0 => (g1 s0).bind g2) s
  have hI := DBTransaction_spec begin_ok commit_ok
    (fun s0 => (ins s0).map (WriteRelationship wrel)) s
  refine ⟨⟨?_, ?_⟩, ⟨?_, ?_⟩, ⟨?_, ?_⟩⟩ <;> intro h
  · obtain ⟨s3, hf, hfin⟩ := hR.1 h
    obtain ⟨s1, h1, hrest⟩ := Option.bind_eq_some.mp hf
    obtain ⟨s2, h2, h3⟩ := Option.bind_eq_some.mp hrest
    exact ⟨s1, s2, s3, h1, h2, h3, hfin⟩
  · exact hR.2 h
  · obtain ⟨s2, hf, hfin⟩ := hD.1 h
    obtain ⟨s1, h1, h2⟩ := Option.bind_eq_some.mp hf
    exact ⟨s1, s2, h1, h2, hfin⟩
  · exact hD.2 h
  · cases node_valid with
    | false => simp [InsertNode] at h
    | true =>
      obtain ⟨s2, hf, hfin⟩ := hI.1 h
      obtain ⟨s1, h1, h2⟩ := Option.map_eq_some'.mp hf
      exact ⟨s1, h1,
        (show (InsertNode true begin_ok commit_ok ins wrel s).2 = s2 from hfin).trans h2.symm⟩
  · cases node_valid with
    | false => rfl
    | true => exact hI.2 h

/-- C3 witness: the amended theorem applied with a failing commit on each of
the three operations, over a statement-log state. -/
theorem C3_atomicity_amended_witness :
    (RemoveNode true false (fun l => some (l ++ ["a"])) (fun l => some (l ++ ["b"]))
        (fun l => some (l ++ ["c"])) ([] : List String)).2 = []
    ∧ (DragNode true false (fun l => some (l ++ ["a"])) (fun l => some (l ++ ["b"]))
        ([] : List String)).2 = []
    ∧ (InsertNode true true false (fun l => some (l ++ ["a"]))
        (fun l => some (l ++ ["b"])) ([] : List String)).2 = [] :=
  ⟨(C3_atomicity_amended true false true (fun l => some (l ++ ["a"]))
      (fun l => some (l ++ ["b"])) (fun l => some (l ++ ["c"]))
      (fun l => some (l ++ ["a"])) (fun l => some (l ++ ["b"]))
      (fun l => some (l ++ ["a"])) (fun l => some (l ++ ["b"])) []).1.2 rfl,
   (C3_atomicity_amended true false true (fun l => some (l ++ ["a"]))
      (fun l => some (l ++ ["b"])) (fun l => some (l ++ ["c"]))
      (fun l => some (l ++ ["a"])) (fun l => some (l ++ ["b"]))
      (fun l => some (l ++ ["a"])) (fun l => some (l ++ ["b"])) []).2.1.2 rfl,
   (C3_atomicity_amended true false true (fun l => some (l ++ ["a"]))
      (fun l => some (l ++ ["b"])) (fun l => some (l ++ ["c"]))
      (fun l => some (l ++ ["a"])) (fun l => some (l ++ ["b"]))
      (fun l => some (l ++ ["a"])) (fun l => some (l ++ ["b"])) []).2.2.2 rfl⟩

/-! ## C6 and C7: `LeafTotal` -/

/-- C6: for a leaf node with positive id (query string non-empty, statement
executed, a result row present), `LeafTotal` sets `initial_total` and
`final_total` to the queried balances multiplied by `+1` when `rule` is true
and by `-1` when it is false, leaving every other field unchanged. -/
theorem C6_leafTotal_sign (n : Node) (initial_balance final_balance : ℚ)
    (hid : 0 < n.id) (hbr : n.branch = false) :
    LeafTotal (some n) false true (some (some initial_balance, some final_balance))
      = some { n with
          initial_total := (if n.rule then 1 else -1) * initial_balance
          final_total := (if n.rule then 1 else -1) * final_balance } := by
  have hguard : ¬ (n.id ≤ 0 ∨ n.branch = true) := by
    rintro (h | h)
    · omega
    · rw [hbr] at h; exact Bool.false_ne_true h
  simp only [LeafTotal, hbr, Bool.false_eq_true, or_false, CalculateLeafTotal,
    Option.getD_some, Bool.not_true, if_neg (show ¬ n.id ≤ 0 by omega)]
  rfl

/-- C6 witness: node A (`rule = true`, leaf) with queried balances
`(100, 80)` yields `(100, 80)`; node B (`rule = false`) with the same
balances yields `(-100, -80)`. -/
theorem C6_leafTotal_sign_witness :
    LeafTotal (some ⟨1, "A", "", "", "", true, false, 0, 0, 0⟩) false true
        (some (some 100, some 80))
      = some ⟨1, "A", "", "", "", true, false, 0, 100, 80⟩
    ∧ LeafTotal (some ⟨2, "B", "", "", "", false, false, 0, 0, 0⟩) false true
        (some (some 100, some 80))
      = some ⟨2, "B", "", "", "", false, false, 0, -100, -80⟩ := by
  constructor
  · rw [C6_leafTotal_sign ⟨1, "A", "", "", "", true, false, 0, 0, 0⟩ 100 80
      (by decide) rfl]
    norm_num
  · rw [C6_leafTotal_sign ⟨2, "B", "", "", "", false, false, 0, 0, 0⟩ 100 80
      (by decide) rfl]
    norm_num

/-- C7: `LeafTotal` is a no-op on a null node, on a node with `id ≤ 0`, and
on a branch node — the node (all fields included) is returned unchanged
whatever the query would produce. -/
theorem C7_leafTotal_noop (qs_empty exec_ok : Bool)
    (row : Option (Option ℚ × Option ℚ)) :
    LeafTotal none qs_empty exec_ok row = none
    ∧ ∀ n : Node, (n.id ≤ 0 ∨ n.branch = true) →
        LeafTotal (some n) qs_empty exec_ok row = some n := by
  refine ⟨rfl, fun n h => ?_⟩
  simp only [LeafTotal, if_pos h]

/-- C7 witness: a branch node with positive id and a node with id 0 are both
returned unchanged. -/
theorem C7_leafTotal_noop_witness :
    LeafTotal none false true (some (some 100, some 80)) = none
    ∧ LeafTotal (some ⟨3, "C", "", "", "", true, true, 0, 7, 8⟩) false true
        (some (some 100, some 80))
      = some ⟨3, "C", "", "", "", true, true, 0, 7, 8⟩
    ∧ LeafTotal (some ⟨0, "D", "", "", "", true, false, 0, 7, 8⟩) false true
        (some (some 100, some 80))
      = some ⟨0, "D", "", "", "", true, false, 0, 7, 8⟩ :=
  ⟨(C7_leafTotal_noop false true (some (some 100, some 80))).1,
   (C7_leafTotal_noop false true (some (some 100, some 80))).2
     ⟨3, "C", "", "", "", true, true, 0, 7, 8⟩ (Or.inr rfl),
   (C7_leafTotal_noop false true (some (some 100, some 80))).2
     ⟨0, "D", "", "", "", true, false, 0, 7, 8⟩ (Or.inl (by decide))⟩

/-! ## C9: `InsertTransShadow` registers `last_trans_` -/

/-- C9: after two successive `AllocateTransShadow` calls, inserting either
shadow registers, under the freshly generated id, the `last_trans_` object —
which is the `Trans` allocated by the second (most recent) call.  The object
registered coincides with the `Trans` underlying the inserted shadow only
for the most recently allocated shadow: the two shadows alias distinct
`Trans` objects, so inserting the older one maps the new id to a different
object than the one the shadow aliases. -/
theorem C9_insertTransShadow_lastTrans (s : SqlState) :
    (∀ sh : ShadowRef,
      ((InsertTransShadow sh true
          (AllocateTransShadow (AllocateTransShadow s).2).2).2.2.trans_hash).lookup
          (AllocateTransShadow (AllocateTransShadow s).2).2.next_db_id
        = some (AllocateTransShadow (AllocateTransShadow s).2).2.last_trans)
    ∧ (AllocateTransShadow (AllocateTransShadow s).2).2.last_trans
        = (AllocateTransShadow (AllocateTransShadow s).2).1.trans_obj
    ∧ (AllocateTransShadow s).1.trans_obj
        ≠ (AllocateTransShadow (AllocateTransShadow s).2).1.trans_obj := by
  refine ⟨fun sh => ?_, rfl, ?_⟩
  · simp [InsertTransShadow, AllocateTransShadow, List.lookup]
  · simp [AllocateTransShadow]

/-! ## C10: `UpdateCheckState` touches every row -/

/-- C10: the UPDATE issued by `UpdateCheckState` carries no row filter, so in
direct mode every row of the section's transaction table gets the supplied
value in the named column, and in reverse mode every row gets the negation
of its own previous value; row ids are untouched and no row is skipped. -/
theorem C10_updateCheckState_all_rows (value reverse : Bool) (table : List TransRow)
    (i : Nat) :
    (UpdateCheckState value reverse table)[i]?
      = (table[i]?).map
          (fun r => { r with checked := if reverse then ! r.checked else value }) := by
  cases reverse with
  | false => simp [UpdateCheckState, List.getElem?_map]
  | true => simp [UpdateCheckState, List.getElem?_map]

/-! ## C4: the incomplete-transaction invariant -/

/-- C4 counterexample.  The claim states that no write path persists a
transaction whose product reference (`rhs_node`) is 0.  The inside-product
case of `TableModelOrder::setData` violates this: editing the inside-product
cell of an already-persisted order line (`old_rhs_node = 5 ≠ 0`, owning node
id 3) to 0 sets the shadow's `rhs_node` to 0 and still issues
`sql_->UpdateField(info_.transaction, 0, kInsideProduct, 11)`, persisting the
0 product reference for line 11. -/
theorem C4_insideProduct_counterexample :
    ((setDataInsideProduct 3 ⟨11, 7, 5, 0, 0, 0, 0, 0, 0, 0, 0⟩ 0 none 0
        "sales_transaction").1.rhs_node = 0)
    ∧ ((setDataInsideProduct 3 ⟨11, 7, 5, 0, 0, 0, 0, 0, 0, 0, 0⟩ 0 none 0
        "sales_transaction").2.2
      = [DbWrite.updateFieldInt "sales_transaction" kInsideProduct 11 0]) := by
  exact ⟨rfl, rfl⟩

/-- C4 (amended): the two cited guards hold — `TableModelUtils::UpdateField`
issues no database write and reports `false` whenever the shadow's
`rhs_node` is 0, and every batch that `RUpdateNodeID` passes to the bulk
insert `WriteTransRangeO` contains only lines whose product reference is
non-zero — but not every write path preserves the invariant: whenever the
inside-product cell of an order line that already has a product reference is
edited to 0 in a model with an owning node, `setData` issues a database
update that stores the 0 product reference. -/
theorem C4_incomplete_guard_amended :
    (∀ (V : Type) (_ : DecidableEq V) (member value : V) (table field : String) (id : Int),
      (TableModelUtils.UpdateField member value 0 table field id).2.2 = []
      ∧ (TableModelUtils.UpdateField member value 0 table field id).1 = false)
    ∧ (∀ (node_id : Int) (st : OrderTableState) (batch : List TransO),
      DbWrite.writeTransRangeO batch ∈ (RUpdateNodeID node_id st).2.1 →
      ∀ t ∈ batch, t.rhs_node ≠ 0)
    ∧ (∀ (node_id : Int) (sh : TransO) (stakeholder_found : Option TransO)
        (product_first : ℚ) (trans_table : String),
      node_id ≠ 0 → sh.rhs_node ≠ 0 →
      (setDataInsideProduct node_id sh 0 stakeholder_found product_first trans_table).2.2
        = [DbWrite.updateFieldInt trans_table kInsideProduct sh.id 0]) := by
  refine ⟨?_, ?_, ?_⟩
  · intro V instV member value table field id
    by_cases hmv : member = value <;> simp [TableModelUtils.UpdateField, hmv]
  · intro node_id st batch hmem t ht
    unfold RUpdateNodeID at hmem
    split_ifs at hmem with h1 h2
    · simp at hmem
    · simp at hmem
    · dsimp only at hmem
      rcases hw : ((st.trans_shadow_list.filter (fun t => t.rhs_node != 0)).map
          (fun t => { t with lhs_node := node_id })).isEmpty with _ | _
      · rw [hw] at hmem
        simp at hmem
        subst hmem
        obtain ⟨t0, ht0, rfl⟩ := List.mem_map.mp ht
        have := List.of_mem_filter ht0
        simpa using this
      · rw [hw] at hmem
        simp at hmem
  · intro node_id sh stakeholder_found product_first trans_table hnid hrhs
    unfold setDataInsideProduct UpdateInsideProduct CrossSearch
    rw [if_neg hrhs]
    simp only [le_refl, if_true]
    rw [if_neg hnid]
    simp [hrhs]

/-- C4 witness: the guards at concrete inputs — `UpdateField` on a shadow
with `rhs_node = 0` issues no write; the batch inserted by
`RUpdateNodeID(4)` on a list holding one incomplete and one complete line
contains only non-zero product references; and the inside-product edit of a
persisted line to 0 issues the offending update. -/
theorem C4_incomplete_guard_amended_witness :
    (TableModelUtils.UpdateField (5 : Int) 7 0 "sales_transaction" "code" 3).2.2 = []
    ∧ (∀ t ∈ [({ (⟨2, 0, 9, 1, 1, 1, 1, 1, 1, 1, 1⟩ : TransO) with lhs_node := 4 })],
        TransO.rhs_node t ≠ 0)
    ∧ (setDataInsideProduct 3 ⟨12, 7, 5, 0, 0, 0, 0, 0, 0, 0, 0⟩ 0 none 0
        "purchase_transaction").2.2
      = [DbWrite.updateFieldInt "purchase_transaction" kInsideProduct 12 0] :=
  ⟨(C4_incomplete_guard_amended.1 Int inferInstance 5 7 "sales_transaction" "code" 3).1,
   C4_incomplete_guard_amended.2.1 4
     ⟨0, [⟨1, 0, 0, 1, 2, 3, 4, 5, 6, 7, 8⟩, ⟨2, 0, 9, 1, 1, 1, 1, 1, 1, 1, 1⟩]⟩
     [({ (⟨2, 0, 9, 1, 1, 1, 1, 1, 1, 1, 1⟩ : TransO) with lhs_node := 4 })]
     (by decide),
   C4_incomplete_guard_amended.2.2 3 ⟨12, 7, 5, 0, 0, 0, 0, 0, 0, 0, 0⟩ none 0
     "purchase_transaction" (by decide) (by decide)⟩

end YtxModel
